import Mathlib

/-!
# Verification of the branch-ensure protocol (`src/action/git.js`)

Shallow embedding of `ensureUpdateBranchExists` and its helper
`createBranchWithCleanup`.  The octokit client is modelled as an oracle
`Nat → ApiResult`: the n-th remote API call of the run receives the
n-th response of the oracle (every call either resolves with reference
data or rejects with an error carrying an HTTP status).  The run is recorded
as a trace of events: each API call together with its response, and each
backoff wait with its duration in milliseconds.  Errors reaching the
caller are either an octokit error propagated unchanged (`Failure.api`)
or an `Error` synthesized locally by the component (`Failure.localErr`).
-/

namespace Overweight

/-- An octokit rejection: an error object carrying an HTTP status and a
message.  The source only ever inspects `error.status` (against 404 and
422); the message is carried along so that error identity is visible. -/
structure GitError where
  status : Nat
  message : String
deriving DecidableEq, Repr

/-- The payload of a successful `getRef` response: `response.data` with an
optional `object.sha` and a top-level `sha` field. -/
structure RefData where
  objectSha : Option String
  sha : String
deriving DecidableEq, Repr

/-- `const resolveRefSha = (response) => response.data.object?.sha || response.data.sha;`
JS `||` falls through on the falsy empty string as well as on `undefined`. -/
def resolveRefSha (d : RefData) : String :=
  match d.objectSha with
  | some s => if s = "" then d.sha else s
  | none => d.sha

/-- A remote API call with its arguments, as issued by the component. -/
inductive ApiCall where
  | getRef (owner repo ref : String)
  | createRef (owner repo ref sha : String)
  | deleteRef (owner repo ref : String)
deriving DecidableEq, Repr

/-- The answer of the client to one API call: resolve with data, or
reject with an error.  (`createRef`/`deleteRef` resolutions carry data the component
ignores.) -/
inductive ApiResult where
  | ok (d : RefData)
  | err (e : GitError)
deriving DecidableEq, Repr

/-- One observable step of a run: an API call together with the response
it received, or a timed wait (`setTimeout`) of the given duration. -/
inductive Event where
  | call (c : ApiCall) (r : ApiResult)
  | wait (ms : Nat)
deriving DecidableEq, Repr

/-- What the caller sees on failure: an octokit error re-thrown unchanged,
or an `Error` synthesized by the component with the given message. -/
inductive Failure where
  | api (e : GitError)
  | localErr (msg : String)
deriving DecidableEq, Repr

/-- The client, as the stream of responses it will give: the n-th API call
of the run receives `oracle n`. -/
def Oracle : Type := Nat → ApiResult

def MAX_CREATION_ATTEMPTS : Nat := 2
def MAX_VERIFICATION_ATTEMPTS : Nat := 7
def VERIFICATION_BASE_DELAY_MS : Nat := 500
def BRANCH_REF_PREFIX : String := "refs/heads/"
def SHORT_REF_PREFIX : String := "heads/"

/-- The message of the error thrown when creation attempts are exhausted
(git.js lines 173-175). -/
def createFailMsg (branchName : String) : String :=
  s!"Unable to create branch {branchName} after cleaning up conflicting references."

/-- The message of the error thrown when verification attempts are
exhausted or a verification read fails with a status other than 404
(git.js lines 92-94). -/
def verifyFailMsg (branchName : String) : String :=
  s!"Branch {branchName} was created but is not accessible after multiple retries"

/-- The call-site constants of one run: repository coordinates, the branch
name and the derived short/full ref forms, and the base SHA already
resolved from the base branch. -/
structure Ctx where
  owner : String
  repo : String
  branchName : String
  branchRef : String
  fullBranchRef : String
  baseSha : String

/-- The creation loop of `createBranchWithCleanup` (git.js lines 111-175).
`fuel` counts the remaining iterations of
`for (attempt = 0; attempt < MAX_CREATION_ATTEMPTS; attempt++)`; the top
level runs it with `fuel = MAX_CREATION_ATTEMPTS`.  `idx` is the index of
the next oracle response.  Returns the phase result, the trace of the
phase, and the next oracle index. -/
def createGo (oracle : Oracle) (ctx : Ctx) (idx : Nat) (fuel : Nat) :
    Except Failure Unit × List Event × Nat :=
  match fuel with
  | 0 =>
    (Except.error (.localErr (createFailMsg ctx.branchName)), [], idx)
  | fuel + 1 =>
    let cCall := ApiCall.createRef ctx.owner ctx.repo ctx.fullBranchRef ctx.baseSha
    match oracle idx with
    | .ok d => (Except.ok (), [.call cCall (.ok d)], idx + 1)
    | .err e =>
      if e.status ≠ 422 then
        (Except.error (.api e), [.call cCall (.err e)], idx + 1)
      else
        let gCall := ApiCall.getRef ctx.owner ctx.repo ctx.branchRef
        match oracle (idx + 1) with
        | .ok d =>
          (Except.ok (), [.call cCall (.err e), .call gCall (.ok d)], idx + 2)
        | .err g =>
          if g.status ≠ 404 then
            (Except.error (.api g), [.call cCall (.err e), .call gCall (.err g)], idx + 2)
          else
            let dCall := ApiCall.deleteRef ctx.owner ctx.repo ctx.fullBranchRef
            match oracle (idx + 2) with
            | .ok dd =>
              let rest := createGo oracle ctx (idx + 3) fuel
              (rest.1,
                .call cCall (.err e) :: .call gCall (.err g) :: .call dCall (.ok dd) :: rest.2.1,
                rest.2.2)
            | .err de =>
              if de.status = 404 ∨ de.status = 422 then
                let rest := createGo oracle ctx (idx + 3) fuel
                (rest.1,
                  .call cCall (.err e) :: .call gCall (.err g) :: .call dCall (.err de) :: rest.2.1,
                  rest.2.2)
              else
                (Except.error (.api de),
                  [.call cCall (.err e), .call gCall (.err g), .call dCall (.err de)],
                  idx + 3)

/-- The verification loop (git.js lines 71-97).  `attempt` is the loop
counter of
`for (attempt = 0; attempt < MAX_VERIFICATION_ATTEMPTS; attempt++)` and
`fuel = MAX_VERIFICATION_ATTEMPTS - attempt` the remaining iterations; the
top level runs it with `attempt = 0`, `fuel = MAX_VERIFICATION_ATTEMPTS`.
When the loop exits normally the function falls through to `return true`. -/
def verifyGo (oracle : Oracle) (ctx : Ctx) (idx : Nat) (attempt : Nat) (fuel : Nat) :
    Except Failure Bool × List Event × Nat :=
  match fuel with
  | 0 => (Except.ok true, [], idx)
  | fuel + 1 =>
    let gCall := ApiCall.getRef ctx.owner ctx.repo ctx.branchRef
    match oracle idx with
    | .ok d => (Except.ok true, [.call gCall (.ok d)], idx + 1)
    | .err e =>
      if e.status = 404 ∧ attempt < MAX_VERIFICATION_ATTEMPTS - 1 then
        let delay := VERIFICATION_BASE_DELAY_MS * 2 ^ attempt
        let rest := verifyGo oracle ctx (idx + 1) (attempt + 1) fuel
        (rest.1, .call gCall (.err e) :: .wait delay :: rest.2.1, rest.2.2)
      else
        (Except.error (.localErr (verifyFailMsg ctx.branchName)),
          [.call gCall (.err e)], idx + 1)

/-- `ensureUpdateBranchExists` (git.js lines 21-100).  `octokitPresent`
models the truthiness of the `octokit` argument.  Returns what the JS
promise does — `Except.ok` with the returned boolean, or `Except.error`
with the thrown error — together with the full trace of the run. -/
def ensureUpdateBranchExists (oracle : Oracle) (octokitPresent : Bool)
    (owner repo branchName baseBranch : String) :
    Except Failure Bool × List Event :=
  if octokitPresent = false then
    (Except.error (.localErr "ensureUpdateBranchExists requires an authenticated octokit client."),
      [])
  else
    let branchRef := SHORT_REF_PREFIX ++ branchName
    let baseRef := SHORT_REF_PREFIX ++ baseBranch
    let fullBranchRef := BRANCH_REF_PREFIX ++ branchName
    let existCall := ApiCall.getRef owner repo branchRef
    match oracle 0 with
    | .ok d => (Except.ok true, [.call existCall (.ok d)])
    | .err e =>
      if e.status ≠ 404 then
        (Except.error (.api e), [.call existCall (.err e)])
      else
        let baseCall := ApiCall.getRef owner repo baseRef
        match oracle 1 with
        | .err be =>
          (Except.error (.api be), [.call existCall (.err e), .call baseCall (.err be)])
        | .ok baseData =>
          let baseSha := resolveRefSha baseData
          let ctx : Ctx :=
            ⟨owner, repo, branchName, branchRef, fullBranchRef, baseSha⟩
          let created := createGo oracle ctx 2 MAX_CREATION_ATTEMPTS
          let pre := Event.call existCall (.err e) :: Event.call baseCall (.ok baseData) :: created.2.1
          match created.1 with
          | .error f => (Except.error f, pre)
          | .ok _ =>
            let verified := verifyGo oracle ctx created.2.2 0 MAX_VERIFICATION_ATTEMPTS
            (verified.1, pre ++ verified.2.1)

/-- Is this event a `createRef` call? -/
def isCreateRefE : Event → Bool
  | .call (.createRef _ _ _ _) _ => true
  | _ => false

/-- Is this event a `deleteRef` call? -/
def isDeleteRefE : Event → Bool
  | .call (.deleteRef _ _ _) _ => true
  | _ => false

/-- Is this event a `getRef` call? -/
def isGetRefE : Event → Bool
  | .call (.getRef _ _ _) _ => true
  | _ => false

/-- Number of `createRef` calls in a trace. -/
def createCount (tr : List Event) : Nat := tr.countP isCreateRefE

/-- Number of `deleteRef` calls in a trace. -/
def deleteCount (tr : List Event) : Nat := tr.countP isDeleteRefE

/-- Number of `getRef` calls in a trace. -/
def getRefCount (tr : List Event) : Nat := tr.countP isGetRefE

/-- The durations of the waits of a trace, in order. -/
def waits (tr : List Event) : List Nat :=
  tr.filterMap fun ev =>
    match ev with
    | .wait ms => some ms
    | _ => none

/-- The mutating calls (`createRef`/`deleteRef`) of a trace, in order. -/
def mutations (tr : List Event) : List ApiCall :=
  tr.filterMap fun ev =>
    match ev with
    | .call (.createRef o r f s) _ => some (ApiCall.createRef o r f s)
    | .call (.deleteRef o r f) _ => some (ApiCall.deleteRef o r f)
    | _ => none

/-- Is this event a backoff wait? -/
def isWaitE : Event → Bool
  | .wait _ => true
  | _ => false

/-- The context a run builds after resolving the base branch: derived
short/full ref forms and the base SHA (git.js lines 27-29 and 57). -/
def mkCtx (owner repo branchName : String) (baseData : RefData) : Ctx :=
  ⟨owner, repo, branchName, SHORT_REF_PREFIX ++ branchName,
    BRANCH_REF_PREFIX ++ branchName, resolveRefSha baseData⟩

/-- The delays the verification loop emits while reads keep failing with
404: starting at loop counter `attempt`, `k` consecutive misses produce
these waits in order (each `500 * 2 ^ attemptIndex`). -/
def expWaits (attempt k : Nat) : List Nat :=
  match k with
  | 0 => []
  | k + 1 => VERIFICATION_BASE_DELAY_MS * 2 ^ attempt :: expWaits (attempt + 1) k

/-- Traces in which every `deleteRef` call is the third event of a
conflict-cleanup block: a `createRef` that failed with status 422,
immediately followed by a re-read of the branch that failed with
status 404, immediately followed by the delete (of the same
fully-qualified ref the create used).  Any event that is not a
`deleteRef` may also appear on its own. -/
inductive DeletesOk : List Event → Prop where
  | nil : DeletesOk []
  | skip (ev : Event) (tr : List Event) (hev : isDeleteRefE ev = false)
      (htr : DeletesOk tr) : DeletesOk (ev :: tr)
  | cleanup (o r f s b : String) (e g : GitError) (z : ApiResult) (tr : List Event)
      (he : e.status = 422) (hg : g.status = 404) (htr : DeletesOk tr) :
      DeletesOk (.call (.createRef o r f s) (.err e) ::
        .call (.getRef o r b) (.err g) ::
        .call (.deleteRef o r f) z :: tr)

/-- Client scenario: the branch is absent (404), the base resolves, the
create succeeds, and the first verification read succeeds. -/
def c1OracleClean : Oracle := fun n =>
  match n with
  | 0 => .err ⟨404, "Not Found"⟩
  | 1 => .ok ⟨some "base-sha", ""⟩
  | 2 => .ok ⟨none, ""⟩
  | _ => .ok ⟨some "new-branch-sha", ""⟩

/-- Client scenario: the branch already exists (every read succeeds). -/
def c1OracleExists : Oracle := fun _ => .ok ⟨some "existing-sha", ""⟩

/-- Client scenario: branch absent, base resolves, create succeeds, then
the first verification read fails with status 500. -/
def c2Oracle : Oracle := fun n =>
  match n with
  | 0 => .err ⟨404, "Not Found"⟩
  | 1 => .ok ⟨some "base-sha", ""⟩
  | 2 => .ok ⟨none, ""⟩
  | _ => .err ⟨500, "boom"⟩

/-- Client scenario: branch absent, base resolves, then both creation
attempts fail with 422 and both re-reads report 404, so the cleanup path
runs twice (two creates, two deletes) before creation exhausts. -/
def c3Oracle : Oracle := fun n =>
  match n with
  | 0 => .err ⟨404, "Not Found"⟩
  | 1 => .ok ⟨some "base-sha", ""⟩
  | 2 => .err ⟨422, "Reference already exists"⟩
  | 3 => .err ⟨404, "Not Found"⟩
  | 4 => .ok ⟨none, ""⟩
  | 5 => .err ⟨422, "Reference already exists"⟩
  | 6 => .err ⟨404, "Not Found"⟩
  | 7 => .ok ⟨none, ""⟩
  | _ => .ok ⟨none, ""⟩

/-- Client scenario: branch absent, base resolves, create succeeds, the
verification reads at attempts 0..5 report 404 and attempt 6 succeeds. -/
def c4Oracle : Oracle := fun n =>
  match n with
  | 0 => .err ⟨404, "Not Found"⟩
  | 1 => .ok ⟨some "base-sha", ""⟩
  | 2 => .ok ⟨none, ""⟩
  | 9 => .ok ⟨some "new-branch-sha", ""⟩
  | _ => .err ⟨404, "Not Found"⟩

/-- Client scenario: branch absent, base resolves, create succeeds, and
all 7 verification reads report 404. -/
def c5Oracle : Oracle := fun n =>
  match n with
  | 0 => .err ⟨404, "Not Found"⟩
  | 1 => .ok ⟨some "base-sha", ""⟩
  | 2 => .ok ⟨none, ""⟩
  | _ => .err ⟨404, "Not Found"⟩

/-- Client scenario: branch absent, base resolves, create conflicts (422),
the re-read reports 404, the delete itself fails tolerably (422), the
retried create succeeds, and verification succeeds. -/
def c6Oracle : Oracle := fun n =>
  match n with
  | 0 => .err ⟨404, "Not Found"⟩
  | 1 => .ok ⟨some "base-sha", ""⟩
  | 2 => .err ⟨422, "Reference already exists"⟩
  | 3 => .err ⟨404, "Not Found"⟩
  | 4 => .err ⟨422, "delete conflict"⟩
  | 5 => .ok ⟨none, ""⟩
  | _ => .ok ⟨some "new-branch-sha", ""⟩

/-- Client scenario: the branch already exists. -/
def c7Oracle : Oracle := fun _ => .ok ⟨some "existing-sha", ""⟩

/-- Client scenario: the branch is absent and the base-branch read fails
with status 500. -/
def c8Oracle : Oracle := fun n =>
  match n with
  | 0 => .err ⟨404, "Not Found"⟩
  | 1 => .err ⟨500, "boom"⟩
  | _ => .ok ⟨none, ""⟩

@[simp] theorem waits_nil : waits [] = [] := rfl

@[simp] theorem waits_cons_call (c : ApiCall) (r : ApiResult) (tr : List Event) :
    waits (Event.call c r :: tr) = waits tr := rfl

@[simp] theorem waits_cons_wait (ms : Nat) (tr : List Event) :
    waits (Event.wait ms :: tr) = ms :: waits tr := rfl

@[simp] theorem waits_append (a b : List Event) : waits (a ++ b) = waits a ++ waits b := by
  simp [waits, List.filterMap_append]

@[simp] theorem createCount_nil : createCount [] = 0 := rfl

@[simp] theorem createCount_cons (ev : Event) (tr : List Event) :
    createCount (ev :: tr) = createCount tr + (if isCreateRefE ev then 1 else 0) := by
  simp [createCount, List.countP_cons]

@[simp] theorem createCount_append (a b : List Event) :
    createCount (a ++ b) = createCount a + createCount b := by
  simp [createCount, List.countP_append]

@[simp] theorem deleteCount_nil : deleteCount [] = 0 := rfl

@[simp] theorem deleteCount_cons (ev : Event) (tr : List Event) :
    deleteCount (ev :: tr) = deleteCount tr + (if isDeleteRefE ev then 1 else 0) := by
  simp [deleteCount, List.countP_cons]

@[simp] theorem deleteCount_append (a b : List Event) :
    deleteCount (a ++ b) = deleteCount a + deleteCount b := by
  simp [deleteCount, List.countP_append]

@[simp] theorem getRefCount_nil : getRefCount [] = 0 := rfl

@[simp] theorem getRefCount_cons (ev : Event) (tr : List Event) :
    getRefCount (ev :: tr) = getRefCount tr + (if isGetRefE ev then 1 else 0) := by
  simp [getRefCount, List.countP_cons]

@[simp] theorem getRefCount_append (a b : List Event) :
    getRefCount (a ++ b) = getRefCount a + getRefCount b := by
  simp [getRefCount, List.countP_append]

@[simp] theorem mutations_nil : mutations [] = [] := rfl

@[simp] theorem mutations_cons_get (o r f : String) (x : ApiResult) (tr : List Event) :
    mutations (Event.call (.getRef o r f) x :: tr) = mutations tr := rfl

@[simp] theorem mutations_cons_create (o r f s : String) (x : ApiResult) (tr : List Event) :
    mutations (Event.call (.createRef o r f s) x :: tr) =
      ApiCall.createRef o r f s :: mutations tr := rfl

@[simp] theorem mutations_cons_delete (o r f : String) (x : ApiResult) (tr : List Event) :
    mutations (Event.call (.deleteRef o r f) x :: tr) =
      ApiCall.deleteRef o r f :: mutations tr := rfl

@[simp] theorem mutations_cons_wait (ms : Nat) (tr : List Event) :
    mutations (Event.wait ms :: tr) = mutations tr := rfl

@[simp] theorem mutations_append (a b : List Event) :
    mutations (a ++ b) = mutations a ++ mutations b := by
  simp [mutations, List.filterMap_append]

/-- The verification loop makes no mutating calls, makes at most `fuel`
reads, and emits no `deleteRef` events at all. -/
theorem verifyGo_counts (oracle : Oracle) (ctx : Ctx) :
    ∀ fuel attempt idx,
      createCount (verifyGo oracle ctx idx attempt fuel).2.1 = 0 ∧
      deleteCount (verifyGo oracle ctx idx attempt fuel).2.1 = 0 ∧
      getRefCount (verifyGo oracle ctx idx attempt fuel).2.1 ≤ fuel ∧
      mutations (verifyGo oracle ctx idx attempt fuel).2.1 = [] := by
  intro fuel
  induction fuel with
  | zero => intro attempt idx; simp [verifyGo]
  | succ fuel ih =>
    intro attempt idx
    obtain ⟨h1, h2, h3, h4⟩ := ih (attempt + 1) (idx + 1)
    cases ho : oracle idx with
    | ok d => simp [verifyGo, ho, isCreateRefE, isDeleteRefE, isGetRefE]
    | err e =>
      by_cases hc : e.status = 404 ∧ attempt < MAX_VERIFICATION_ATTEMPTS - 1
      · refine ⟨?_, ?_, ?_, ?_⟩ <;>
          simp [verifyGo, ho, hc.1, hc.2, isCreateRefE, isDeleteRefE, isGetRefE, h1, h2, h4]
        all_goals omega
      · refine ⟨?_, ?_, ?_, ?_⟩ <;>
          simp [verifyGo, ho, hc, isCreateRefE, isDeleteRefE, isGetRefE]

/-- If every remaining verification read reports 404, the loop fails with
the synthesized "not accessible after multiple retries" error. -/
theorem verifyGo_all404 (oracle : Oracle) (ctx : Ctx) :
    ∀ fuel attempt idx, attempt + fuel = MAX_VERIFICATION_ATTEMPTS → 0 < fuel →
      (∀ j, j < fuel → ∃ ej, oracle (idx + j) = .err ej ∧ ej.status = 404) →
      (verifyGo oracle ctx idx attempt fuel).1 =
        Except.error (.localErr (verifyFailMsg ctx.branchName)) := by
  intro fuel
  induction fuel with
  | zero => intro attempt idx _ h; omega
  | succ fuel ih =>
    intro attempt idx hsum _ hall
    obtain ⟨e0, he0, hs0⟩ := hall 0 (by omega)
    rw [Nat.add_zero] at he0
    simp only [verifyGo, he0]
    by_cases hlt : attempt < MAX_VERIFICATION_ATTEMPTS - 1
    · rw [if_pos ⟨hs0, hlt⟩]
      have hfuel : 0 < fuel := by
        simp only [MAX_VERIFICATION_ATTEMPTS] at hsum hlt
        omega
      exact ih (attempt + 1) (idx + 1) (by omega) hfuel
        (fun j hj => by
          obtain ⟨ej, hej, hejs⟩ := hall (j + 1) (by omega)
          refine ⟨ej, ?_, hejs⟩
          rwa [show idx + 1 + j = idx + (j + 1) by omega])
    · rw [if_neg (by tauto)]

/-- If the verification reads report 404 for `k` attempts and then
succeed, the loop returns `true` and emits exactly the exponential
backoff waits starting at the loop counter it began with. -/
theorem verifyGo_ok_after (oracle : Oracle) (ctx : Ctx) :
    ∀ k fuel attempt idx d, attempt + fuel = MAX_VERIFICATION_ATTEMPTS → k < fuel →
      (∀ j, j < k → ∃ ej, oracle (idx + j) = .err ej ∧ ej.status = 404) →
      oracle (idx + k) = .ok d →
      (verifyGo oracle ctx idx attempt fuel).1 = Except.ok true ∧
      waits (verifyGo oracle ctx idx attempt fuel).2.1 = expWaits attempt k := by
  intro k
  induction k with
  | zero =>
    intro fuel attempt idx d _ hk _ hok
    rw [Nat.add_zero] at hok
    cases fuel with
    | zero => omega
    | succ fuel => simp [verifyGo, hok, expWaits]
  | succ k ih =>
    intro fuel attempt idx d hsum hk hall hok
    cases fuel with
    | zero => omega
    | succ fuel =>
      obtain ⟨e0, he0, hs0⟩ := hall 0 (by omega)
      rw [Nat.add_zero] at he0
      have hlt : attempt < MAX_VERIFICATION_ATTEMPTS - 1 := by
        simp only [MAX_VERIFICATION_ATTEMPTS] at hsum ⊢
        omega
      have hrec := ih fuel (attempt + 1) (idx + 1) d (by omega) (by omega)
        (fun j hj => by
          obtain ⟨ej, hej, hejs⟩ := hall (j + 1) (by omega)
          refine ⟨ej, ?_, hejs⟩
          rwa [show idx + 1 + j = idx + (j + 1) by omega])
        (by rwa [show idx + 1 + k = idx + (k + 1) by omega])
      simp only [verifyGo, he0]
      rw [if_pos ⟨hs0, hlt⟩]
      simp [hrec.1, hrec.2, expWaits]

/-- If the verification reads report 404 for `k` attempts and then fail
with a status other than 404, the loop stops at once with the synthesized
"not accessible after multiple retries" error, having made `k + 1` reads. -/
theorem verifyGo_err_after (oracle : Oracle) (ctx : Ctx) :
    ∀ k fuel attempt idx e, attempt + fuel = MAX_VERIFICATION_ATTEMPTS → k < fuel →
      (∀ j, j < k → ∃ ej, oracle (idx + j) = .err ej ∧ ej.status = 404) →
      oracle (idx + k) = .err e → e.status ≠ 404 →
      (verifyGo oracle ctx idx attempt fuel).1 =
        Except.error (.localErr (verifyFailMsg ctx.branchName)) ∧
      getRefCount (verifyGo oracle ctx idx attempt fuel).2.1 = k + 1 := by
  intro k
  induction k with
  | zero =>
    intro fuel attempt idx e _ hk _ herr hes
    rw [Nat.add_zero] at herr
    cases fuel with
    | zero => omega
    | succ fuel =>
      simp only [verifyGo, herr]
      rw [if_neg (by tauto)]
      simp [isGetRefE]
  | succ k ih =>
    intro fuel attempt idx e hsum hk hall herr hes
    cases fuel with
    | zero => omega
    | succ fuel =>
      obtain ⟨e0, he0, hs0⟩ := hall 0 (by omega)
      rw [Nat.add_zero] at he0
      have hlt : attempt < MAX_VERIFICATION_ATTEMPTS - 1 := by
        simp only [MAX_VERIFICATION_ATTEMPTS] at hsum ⊢
        omega
      have hrec := ih fuel (attempt + 1) (idx + 1) e (by omega) (by omega)
        (fun j hj => by
          obtain ⟨ej, hej, hejs⟩ := hall (j + 1) (by omega)
          refine ⟨ej, ?_, hejs⟩
          rwa [show idx + 1 + j = idx + (j + 1) by omega])
        (by rwa [show idx + 1 + k = idx + (k + 1) by omega]) hes
      simp only [verifyGo, he0]
      rw [if_pos ⟨hs0, hlt⟩]
      refine ⟨hrec.1, ?_⟩
      simp [isGetRefE, hrec.2]

/-- A trace without any `deleteRef` call vacuously satisfies `DeletesOk`. -/
theorem deletesOk_of_deleteCount_zero : ∀ tr, deleteCount tr = 0 → DeletesOk tr := by
  intro tr
  induction tr with
  | nil => intro _; exact .nil
  | cons ev tr ih =>
    intro h
    rw [deleteCount_cons] at h
    by_cases hev : isDeleteRefE ev
    · simp [hev] at h
    · exact .skip ev tr (by simpa using hev) (ih (by omega))

/-- Each creation attempt makes at most one `createRef`, one `deleteRef`
and one `getRef` call, so `fuel` attempts make at most `fuel` of each. -/
theorem createGo_counts (oracle : Oracle) (ctx : Ctx) :
    ∀ fuel idx,
      createCount (createGo oracle ctx idx fuel).2.1 ≤ fuel ∧
      deleteCount (createGo oracle ctx idx fuel).2.1 ≤ fuel ∧
      getRefCount (createGo oracle ctx idx fuel).2.1 ≤ fuel := by
  intro fuel
  induction fuel with
  | zero => intro idx; simp [createGo]
  | succ fuel ih =>
    intro idx
    obtain ⟨h1, h2, h3⟩ := ih (idx + 3)
    cases ho : oracle idx with
    | ok d =>
      refine ⟨?_, ?_, ?_⟩ <;> simp [createGo, ho, isCreateRefE, isDeleteRefE, isGetRefE]
    | err e =>
      by_cases he : e.status = 422
      · cases hg : oracle (idx + 1) with
        | ok d =>
          refine ⟨?_, ?_, ?_⟩ <;>
            simp [createGo, ho, hg, he, isCreateRefE, isDeleteRefE, isGetRefE]
        | err g =>
          by_cases hgs : g.status = 404
          · cases hd : oracle (idx + 2) with
            | ok dd =>
              refine ⟨?_, ?_, ?_⟩ <;>
                simp [createGo, ho, hg, hd, he, hgs, isCreateRefE, isDeleteRefE, isGetRefE]
              all_goals omega
            | err de =>
              by_cases hde : de.status = 404 ∨ de.status = 422
              · refine ⟨?_, ?_, ?_⟩ <;>
                  simp [createGo, ho, hg, hd, he, hgs, hde,
                    isCreateRefE, isDeleteRefE, isGetRefE]
                all_goals omega
              · refine ⟨?_, ?_, ?_⟩ <;>
                  simp [createGo, ho, hg, hd, he, hgs, hde,
                    isCreateRefE, isDeleteRefE, isGetRefE]
          · refine ⟨?_, ?_, ?_⟩ <;>
              simp [createGo, ho, hg, he, hgs, isCreateRefE, isDeleteRefE, isGetRefE]
      · refine ⟨?_, ?_, ?_⟩ <;>
          simp [createGo, ho, he, isCreateRefE, isDeleteRefE, isGetRefE]

/-- Every `deleteRef` the creation loop emits sits directly after its
422-create and 404-re-read, so its trace prefixed to any `DeletesOk`
continuation is again `DeletesOk`. -/
theorem createGo_deletesOk (oracle : Oracle) (ctx : Ctx) :
    ∀ fuel idx rest, DeletesOk rest →
      DeletesOk ((createGo oracle ctx idx fuel).2.1 ++ rest) := by
  intro fuel
  induction fuel with
  | zero => intro idx rest h; simpa [createGo] using h
  | succ fuel ih =>
    intro idx rest h
    cases ho : oracle idx with
    | ok d =>
      simp only [createGo, ho, List.cons_append, List.nil_append]
      exact .skip _ _ rfl h
    | err e =>
      by_cases he : e.status = 422
      · cases hg : oracle (idx + 1) with
        | ok d =>
          simp only [createGo, ho, hg]
          simp only [he, ne_eq, not_true_eq_false, if_false, List.cons_append, List.nil_append]
          exact .skip _ _ rfl (.skip _ _ rfl h)
        | err g =>
          by_cases hgs : g.status = 404
          · cases hd : oracle (idx + 2) with
            | ok dd =>
              simp only [createGo, ho, hg, hd]
              simp only [he, hgs, ne_eq, not_true_eq_false, if_false, List.cons_append,
                List.append_assoc]
              exact DeletesOk.cleanup _ _ _ _ _ _ _ _ _ he hgs (ih (idx + 3) rest h)
            | err de =>
              by_cases hde : de.status = 404 ∨ de.status = 422
              · simp only [createGo, ho, hg, hd]
                simp only [he, hgs, hde, ne_eq, not_true_eq_false, if_false, if_true,
                  List.cons_append, List.append_assoc]
                exact DeletesOk.cleanup _ _ _ _ _ _ _ _ _ he hgs (ih (idx + 3) rest h)
              · simp only [createGo, ho, hg, hd]
                simp only [he, hgs, hde, ne_eq, not_true_eq_false, if_false,
                  List.cons_append, List.nil_append]
                exact DeletesOk.cleanup _ _ _ _ _ _ _ _ _ he hgs h
          · simp only [createGo, ho, hg]
            simp only [he, hgs, ne_eq, not_true_eq_false, if_false,
              List.cons_append, List.nil_append]
            exact .skip _ _ rfl (.skip _ _ rfl h)
      · simp only [createGo, ho]
        simp only [he, ne_eq, if_true, List.cons_append, List.nil_append]
        exact .skip _ _ rfl h

/-- A creation attempt whose `createRef` resolves ends the loop at once. -/
theorem createGo_ok (oracle : Oracle) (ctx : Ctx) (idx fuel : Nat) (d : RefData)
    (h : oracle idx = .ok d) :
    createGo oracle ctx idx (fuel + 1) =
      (Except.ok (),
        [Event.call (ApiCall.createRef ctx.owner ctx.repo ctx.fullBranchRef ctx.baseSha)
          (ApiResult.ok d)],
        idx + 1) := by
  simp [createGo, h]

/-- A creation attempt that conflicts (422), re-reads 404, and whose
delete outcome is tolerated (resolution, or rejection with 404/422)
performs the cleanup and continues with the next attempt. -/
theorem createGo_cleanup_step (oracle : Oracle) (ctx : Ctx) (idx fuel : Nat)
    (e g : GitError) (h1 : oracle idx = .err e) (he : e.status = 422)
    (h2 : oracle (idx + 1) = .err g) (hg : g.status = 404)
    (htol : ∀ de, oracle (idx + 2) = .err de → de.status = 404 ∨ de.status = 422) :
    createGo oracle ctx idx (fuel + 1) =
      ((createGo oracle ctx (idx + 3) fuel).1,
        Event.call (ApiCall.createRef ctx.owner ctx.repo ctx.fullBranchRef ctx.baseSha)
          (ApiResult.err e) ::
        Event.call (ApiCall.getRef ctx.owner ctx.repo ctx.branchRef) (ApiResult.err g) ::
        Event.call (ApiCall.deleteRef ctx.owner ctx.repo ctx.fullBranchRef) (oracle (idx + 2)) ::
        (createGo oracle ctx (idx + 3) fuel).2.1,
        (createGo oracle ctx (idx + 3) fuel).2.2) := by
  cases hd : oracle (idx + 2) with
  | ok dd => simp [createGo, h1, h2, hd, he, hg]
  | err de =>
    have hde := htol de hd
    simp [createGo, h1, h2, hd, he, hg, hde]

/-- A verification attempt whose read resolves ends the loop with `true`. -/
theorem verifyGo_ok_head (oracle : Oracle) (ctx : Ctx) (idx attempt fuel : Nat) (d : RefData)
    (h : oracle idx = .ok d) :
    verifyGo oracle ctx idx attempt (fuel + 1) =
      (Except.ok true,
        [Event.call (ApiCall.getRef ctx.owner ctx.repo ctx.branchRef) (ApiResult.ok d)],
        idx + 1) := by
  simp [verifyGo, h]

/-- When the branch is absent (404) and the base read resolves, the run is
the existence read, the base read, the creation phase from oracle index 2,
and — if creation succeeded — the verification phase. -/
theorem ensure_unfold (oracle : Oracle) (owner repo B base : String)
    (e0 : GitError) (bd : RefData)
    (h0 : oracle 0 = .err e0) (h0s : e0.status = 404) (h1 : oracle 1 = .ok bd) :
    ensureUpdateBranchExists oracle true owner repo B base =
      (let created := createGo oracle (mkCtx owner repo B bd) 2 2
       let pre := Event.call (ApiCall.getRef owner repo (SHORT_REF_PREFIX ++ B))
           (ApiResult.err e0) ::
         Event.call (ApiCall.getRef owner repo (SHORT_REF_PREFIX ++ base))
           (ApiResult.ok bd) :: created.2.1
       match created.1 with
       | .error f => (Except.error f, pre)
       | .ok _ =>
         let verified := verifyGo oracle (mkCtx owner repo B bd) created.2.2 0 7
         (verified.1, pre ++ verified.2.1)) := by
  simp [ensureUpdateBranchExists, MAX_CREATION_ATTEMPTS, MAX_VERIFICATION_ATTEMPTS,
    h0, h1, h0s, mkCtx]

/-- When additionally the first `createRef` resolves, the run is three
calls followed by the verification phase from oracle index 3. -/
theorem ensure_create_ok (oracle : Oracle) (owner repo B base : String)
    (e0 : GitError) (bd cd : RefData)
    (h0 : oracle 0 = .err e0) (h0s : e0.status = 404) (h1 : oracle 1 = .ok bd)
    (h2 : oracle 2 = .ok cd) :
    ensureUpdateBranchExists oracle true owner repo B base =
      ((verifyGo oracle (mkCtx owner repo B bd) 3 0 7).1,
        Event.call (ApiCall.getRef owner repo (SHORT_REF_PREFIX ++ B)) (ApiResult.err e0) ::
        Event.call (ApiCall.getRef owner repo (SHORT_REF_PREFIX ++ base)) (ApiResult.ok bd) ::
        Event.call (ApiCall.createRef owner repo (BRANCH_REF_PREFIX ++ B) (resolveRefSha bd))
          (ApiResult.ok cd) ::
        (verifyGo oracle (mkCtx owner repo B bd) 3 0 7).2.1) := by
  rw [ensure_unfold oracle owner repo B base e0 bd h0 h0s h1]
  have hco : createGo oracle (mkCtx owner repo B bd) 2 2 =
      (Except.ok (),
        [Event.call (ApiCall.createRef owner repo (BRANCH_REF_PREFIX ++ B) (resolveRefSha bd))
          (ApiResult.ok cd)],
        3) := createGo_ok oracle (mkCtx owner repo B bd) 2 1 cd h2
  rw [hco]
  rfl

/-- Every run makes at most 11 reads, at most 2 creates and at most
2 deletes. -/
theorem ensure_counts (oracle : Oracle) (p : Bool) (owner repo B base : String) :
    getRefCount (ensureUpdateBranchExists oracle p owner repo B base).2 ≤ 11 ∧
    createCount (ensureUpdateBranchExists oracle p owner repo B base).2 ≤ 2 ∧
    deleteCount (ensureUpdateBranchExists oracle p owner repo B base).2 ≤ 2 := by
  cases p with
  | false => simp [ensureUpdateBranchExists]
  | true =>
    cases h0 : oracle 0 with
    | ok d =>
      refine ⟨?_, ?_, ?_⟩ <;>
        simp [ensureUpdateBranchExists, h0, isCreateRefE, isDeleteRefE, isGetRefE]
    | err e =>
      by_cases hs : e.status = 404
      · cases h1 : oracle 1 with
        | err be =>
          refine ⟨?_, ?_, ?_⟩ <;>
            simp [ensureUpdateBranchExists, h0, h1, hs, isCreateRefE, isDeleteRefE, isGetRefE]
        | ok bd =>
          obtain ⟨hc1, hc2, hc3⟩ := createGo_counts oracle (mkCtx owner repo B bd) 2 2
          obtain ⟨hv1, hv2, hv3, _⟩ :=
            verifyGo_counts oracle (mkCtx owner repo B bd) 7 0
              (createGo oracle (mkCtx owner repo B bd) 2 2).2.2
          rw [ensure_unfold oracle owner repo B base e bd h0 hs h1]
          rcases hcr : (createGo oracle (mkCtx owner repo B bd) 2 2).1 with f | u
          · refine ⟨?_, ?_, ?_⟩ <;>
              simp only [hcr, getRefCount_cons, createCount_cons, deleteCount_cons] <;>
              simp [isCreateRefE, isDeleteRefE, isGetRefE] <;> omega
          · refine ⟨?_, ?_, ?_⟩ <;>
              simp only [hcr, List.cons_append, getRefCount_cons, createCount_cons,
                deleteCount_cons, getRefCount_append, createCount_append,
                deleteCount_append] <;>
              simp [isCreateRefE, isDeleteRefE, isGetRefE] <;> omega
      · refine ⟨?_, ?_, ?_⟩ <;>
          simp [ensureUpdateBranchExists, h0, hs, isCreateRefE, isDeleteRefE, isGetRefE]

/-- C7 (confirmed): whenever the first existence read succeeds the
operation immediately returns `true` ("already existed") having made no
`createRef` and no `deleteRef` call; in particular a second call for the
same branch, whose first read then also succeeds, again returns "already
existed" with no additional mutation. -/
theorem c7_idempotence (oracle oracle2 : Oracle) (owner repo B base : String)
    (d d2 : RefData) (h : oracle 0 = .ok d) (h2 : oracle2 0 = .ok d2) :
    ((ensureUpdateBranchExists oracle true owner repo B base).1 = Except.ok true ∧
      createCount (ensureUpdateBranchExists oracle true owner repo B base).2 = 0 ∧
      deleteCount (ensureUpdateBranchExists oracle true owner repo B base).2 = 0) ∧
    ((ensureUpdateBranchExists oracle2 true owner repo B base).1 = Except.ok true ∧
      createCount (ensureUpdateBranchExists oracle2 true owner repo B base).2 = 0 ∧
      deleteCount (ensureUpdateBranchExists oracle2 true owner repo B base).2 = 0) := by
  refine ⟨⟨?_, ?_, ?_⟩, ⟨?_, ?_, ?_⟩⟩ <;>
    simp [ensureUpdateBranchExists, h, h2, isCreateRefE, isDeleteRefE]

/-- Witness: `c7_idempotence` at the concrete already-exists client. -/
theorem c7_idempotence_witness :
    ((ensureUpdateBranchExists c7Oracle true "owner" "repo" "test-branch" "main").1 =
        Except.ok true ∧
      createCount (ensureUpdateBranchExists c7Oracle true "owner" "repo" "test-branch" "main").2
        = 0 ∧
      deleteCount (ensureUpdateBranchExists c7Oracle true "owner" "repo" "test-branch" "main").2
        = 0) ∧
    ((ensureUpdateBranchExists c7Oracle true "owner" "repo" "test-branch" "main").1 =
        Except.ok true ∧
      createCount (ensureUpdateBranchExists c7Oracle true "owner" "repo" "test-branch" "main").2
        = 0 ∧
      deleteCount (ensureUpdateBranchExists c7Oracle true "owner" "repo" "test-branch" "main").2
        = 0) :=
  c7_idempotence c7Oracle c7Oracle "owner" "repo" "test-branch" "main"
    ⟨some "existing-sha", ""⟩ ⟨some "existing-sha", ""⟩ rfl rfl

/-- C8 (confirmed): when the branch is absent and the base-branch read
fails with a status other than 404, the operation fails at once with that
very error object and no `createRef` call is made (the run is just the two
reads). -/
theorem c8_fast_failure (oracle : Oracle) (owner repo B base : String)
    (e0 be : GitError) (h0 : oracle 0 = .err e0) (h0s : e0.status = 404)
    (h1 : oracle 1 = .err be) (hbs : be.status ≠ 404) :
    (ensureUpdateBranchExists oracle true owner repo B base).1 = Except.error (.api be) ∧
    createCount (ensureUpdateBranchExists oracle true owner repo B base).2 = 0 ∧
    (ensureUpdateBranchExists oracle true owner repo B base).2 =
      [Event.call (ApiCall.getRef owner repo (SHORT_REF_PREFIX ++ B)) (ApiResult.err e0),
       Event.call (ApiCall.getRef owner repo (SHORT_REF_PREFIX ++ base)) (ApiResult.err be)] := by
  refine ⟨?_, ?_, ?_⟩ <;>
    simp [ensureUpdateBranchExists, h0, h0s, h1, isCreateRefE]

/-- Witness: `c8_fast_failure` at the concrete failing-base client. -/
theorem c8_fast_failure_witness :
    (ensureUpdateBranchExists c8Oracle true "owner" "repo" "b" "main").1 =
      Except.error (.api ⟨500, "boom"⟩) ∧
    createCount (ensureUpdateBranchExists c8Oracle true "owner" "repo" "b" "main").2 = 0 ∧
    (ensureUpdateBranchExists c8Oracle true "owner" "repo" "b" "main").2 =
      [Event.call (ApiCall.getRef "owner" "repo" (SHORT_REF_PREFIX ++ "b"))
        (ApiResult.err ⟨404, "Not Found"⟩),
       Event.call (ApiCall.getRef "owner" "repo" (SHORT_REF_PREFIX ++ "main"))
        (ApiResult.err ⟨500, "boom"⟩)] :=
  c8_fast_failure c8Oracle "owner" "repo" "b" "main" ⟨404, "Not Found"⟩ ⟨500, "boom"⟩
    rfl rfl rfl (by decide)

/-- C1 (corrected): in a clean creation (branch absent, base readable,
create and first verification read succeed) the run calls `createRef`
exactly once, with the resolved SHA of the base branch and the fully-qualified
ref `refs/heads/<B>`, then confirms the branch via a successful read and
performs no delete — but it returns `true`, the same boolean value the
already-existed path returns, rather than a distinguishing "created"
value (git.js returns `true` on every success path). -/
theorem c1_clean_creation (oracle : Oracle) (owner repo B base : String)
    (e0 : GitError) (bd cd d3 : RefData)
    (h0 : oracle 0 = .err e0) (h0s : e0.status = 404)
    (h1 : oracle 1 = .ok bd) (h2 : oracle 2 = .ok cd) (h3 : oracle 3 = .ok d3) :
    ensureUpdateBranchExists oracle true owner repo B base =
      (Except.ok true,
        [Event.call (ApiCall.getRef owner repo (SHORT_REF_PREFIX ++ B)) (ApiResult.err e0),
         Event.call (ApiCall.getRef owner repo (SHORT_REF_PREFIX ++ base)) (ApiResult.ok bd),
         Event.call (ApiCall.createRef owner repo (BRANCH_REF_PREFIX ++ B) (resolveRefSha bd))
           (ApiResult.ok cd),
         Event.call (ApiCall.getRef owner repo (SHORT_REF_PREFIX ++ B)) (ApiResult.ok d3)]) ∧
    createCount (ensureUpdateBranchExists oracle true owner repo B base).2 = 1 ∧
    deleteCount (ensureUpdateBranchExists oracle true owner repo B base).2 = 0 := by
  have hmain := ensure_create_ok oracle owner repo B base e0 bd cd h0 h0s h1 h2
  have hvh : verifyGo oracle (mkCtx owner repo B bd) 3 0 7 =
      (Except.ok true,
        [Event.call (ApiCall.getRef owner repo (SHORT_REF_PREFIX ++ B)) (ApiResult.ok d3)],
        4) := verifyGo_ok_head oracle (mkCtx owner repo B bd) 3 0 6 d3 h3
  rw [hvh] at hmain
  refine ⟨?_, ?_, ?_⟩ <;> simp [hmain, isCreateRefE, isDeleteRefE]

/-- Witness: `c1_clean_creation` at the concrete clean-creation client. -/
theorem c1_clean_creation_witness :
    ensureUpdateBranchExists c1OracleClean true "owner" "repo" "test-branch" "main" =
      (Except.ok true,
        [Event.call (ApiCall.getRef "owner" "repo" (SHORT_REF_PREFIX ++ "test-branch"))
          (ApiResult.err ⟨404, "Not Found"⟩),
         Event.call (ApiCall.getRef "owner" "repo" (SHORT_REF_PREFIX ++ "main"))
          (ApiResult.ok ⟨some "base-sha", ""⟩),
         Event.call (ApiCall.createRef "owner" "repo" (BRANCH_REF_PREFIX ++ "test-branch")
          (resolveRefSha ⟨some "base-sha", ""⟩)) (ApiResult.ok ⟨none, ""⟩),
         Event.call (ApiCall.getRef "owner" "repo" (SHORT_REF_PREFIX ++ "test-branch"))
          (ApiResult.ok ⟨some "new-branch-sha", ""⟩)]) ∧
    createCount
      (ensureUpdateBranchExists c1OracleClean true "owner" "repo" "test-branch" "main").2 = 1 ∧
    deleteCount
      (ensureUpdateBranchExists c1OracleClean true "owner" "repo" "test-branch" "main").2 = 0 :=
  c1_clean_creation c1OracleClean "owner" "repo" "test-branch" "main"
    ⟨404, "Not Found"⟩ ⟨some "base-sha", ""⟩ ⟨none, ""⟩ ⟨some "new-branch-sha", ""⟩
    rfl rfl rfl rfl rfl

/-- C1 counterexample: the clean-creation run returns `Except.ok true` —
the very value the already-exists run returns — so the result does not
distinguish "created" from "already existed" as the claim requires. -/
theorem c1_counterexample :
    (ensureUpdateBranchExists c1OracleClean true "owner" "repo" "test-branch" "main").1 =
      Except.ok true ∧
    (ensureUpdateBranchExists c1OracleExists true "owner" "repo" "test-branch" "main").1 =
      Except.ok true := by
  constructor <;> rfl

/-- C10 (confirmed): the operation always terminates (the embedding is a
total function) and, for every client behavior, makes at most 11 `getRef`
calls, at most 2 `createRef` calls and at most 2 `deleteRef` calls. -/
theorem c10_resource_bounds (oracle : Oracle) (p : Bool) (owner repo B base : String) :
    getRefCount (ensureUpdateBranchExists oracle p owner repo B base).2 ≤ 11 ∧
    createCount (ensureUpdateBranchExists oracle p owner repo B base).2 ≤ 2 ∧
    deleteCount (ensureUpdateBranchExists oracle p owner repo B base).2 ≤ 2 :=
  ensure_counts oracle p owner repo B base

/-- C3 (corrected): a run makes at most TWO `createRef` and at most TWO
`deleteRef` calls — not at most one of each, as the double-cleanup run of
`c3_counterexample` shows — and every event of a run is a `getRef`,
`createRef` or `deleteRef` call or a backoff wait (no other mutation
kind exists). -/
theorem c3_mutation_bounds (oracle : Oracle) (p : Bool) (owner repo B base : String) :
    createCount (ensureUpdateBranchExists oracle p owner repo B base).2 ≤ 2 ∧
    deleteCount (ensureUpdateBranchExists oracle p owner repo B base).2 ≤ 2 ∧
    (ensureUpdateBranchExists oracle p owner repo B base).2.countP
      (fun ev => isGetRefE ev || isCreateRefE ev || isDeleteRefE ev || isWaitE ev) =
      (ensureUpdateBranchExists oracle p owner repo B base).2.length := by
  obtain ⟨_, hc, hd⟩ := ensure_counts oracle p owner repo B base
  refine ⟨hc, hd, ?_⟩
  rw [List.countP_eq_length]
  intro ev _
  cases ev with
  | wait ms => rfl
  | call c r => cases c <;> rfl

/-- C3 counterexample: when both creation attempts conflict (422) and both
re-reads report the branch missing (404), one run performs two `createRef`
and two `deleteRef` calls, refuting "at most one" of each. -/
theorem c3_counterexample :
    createCount (ensureUpdateBranchExists c3Oracle true "owner" "repo" "b" "main").2 = 2 ∧
    deleteCount (ensureUpdateBranchExists c3Oracle true "owner" "repo" "b" "main").2 = 2 := by
  constructor <;> rfl

/-- C9 (confirmed): for every client behavior, every `deleteRef` call of a
run occurs exactly as the third event of a cleanup block — immediately
after a `createRef` that failed with status 422 and a re-read of the
branch that failed with status 404; no other path emits a delete. -/
theorem c9_delete_only_after_conflict (oracle : Oracle) (p : Bool)
    (owner repo B base : String) :
    DeletesOk (ensureUpdateBranchExists oracle p owner repo B base).2 := by
  cases p with
  | false =>
    simp only [ensureUpdateBranchExists]
    exact .nil
  | true =>
    cases h0 : oracle 0 with
    | ok d =>
      simp only [ensureUpdateBranchExists, h0]
      exact .skip _ _ rfl .nil
    | err e =>
      by_cases hs : e.status = 404
      · cases h1 : oracle 1 with
        | err be =>
          simp only [ensureUpdateBranchExists, h0, h1]
          simp only [hs, ne_eq, not_true_eq_false, if_false]
          exact .skip _ _ rfl (.skip _ _ rfl .nil)
        | ok bd =>
          rw [ensure_unfold oracle owner repo B base e bd h0 hs h1]
          rcases hcr : (createGo oracle (mkCtx owner repo B bd) 2 2).1 with f | u
          · simp only [hcr]
            refine .skip _ _ rfl (.skip _ _ rfl ?_)
            have h := createGo_deletesOk oracle (mkCtx owner repo B bd) 2 2 [] .nil
            simpa using h
          · simp only [hcr, List.cons_append]
            refine .skip _ _ rfl (.skip _ _ rfl ?_)
            have hv := (verifyGo_counts oracle (mkCtx owner repo B bd) 7 0
              (createGo oracle (mkCtx owner repo B bd) 2 2).2.2).2.1
            exact createGo_deletesOk oracle (mkCtx owner repo B bd) 2 2 _
              (deletesOk_of_deleteCount_zero _ hv)
      · simp only [ensureUpdateBranchExists, h0]
        simp only [hs, ne_eq, if_true]
        exact .skip _ _ rfl .nil

/-- C2 (corrected): when a verification read fails with a status other
than 404 after `k` misses, the operation stops retrying at once (exactly
`k + 1` verification reads happen, `k + 3` reads in total) — but it fails
with the locally synthesized "not accessible after multiple retries"
error, not by propagating the original error object (git.js line 92
throws a new `Error` in this branch). -/
theorem c2_verification_error (oracle : Oracle) (owner repo B base : String)
    (e0 : GitError) (bd cd : RefData) (k : Nat) (e : GitError)
    (h0 : oracle 0 = .err e0) (h0s : e0.status = 404)
    (h1 : oracle 1 = .ok bd) (h2 : oracle 2 = .ok cd)
    (hk : k < MAX_VERIFICATION_ATTEMPTS)
    (hpre : ∀ j, j < k → ∃ ej, oracle (3 + j) = .err ej ∧ ej.status = 404)
    (he : oracle (3 + k) = .err e) (hes : e.status ≠ 404) :
    (ensureUpdateBranchExists oracle true owner repo B base).1 =
      Except.error (.localErr (verifyFailMsg B)) ∧
    getRefCount (ensureUpdateBranchExists oracle true owner repo B base).2 = k + 3 := by
  have hmain := ensure_create_ok oracle owner repo B base e0 bd cd h0 h0s h1 h2
  obtain ⟨hv1, hv2⟩ := verifyGo_err_after oracle (mkCtx owner repo B bd) k 7 0 3 e rfl hk
    hpre he hes
  constructor
  · rw [hmain]
    exact hv1
  · rw [hmain]
    simp [isGetRefE, hv2]

/-- C2 counterexample: with a client whose first verification read fails
with status 500, the operation fails with the synthesized error, not with
the original 500 error object, refuting "propagates that same error object
unchanged". -/
theorem c2_counterexample :
    (ensureUpdateBranchExists c2Oracle true "owner" "repo" "test-branch" "main").1 =
      Except.error (.localErr
        "Branch test-branch was created but is not accessible after multiple retries") ∧
    (ensureUpdateBranchExists c2Oracle true "owner" "repo" "test-branch" "main").1 ≠
      Except.error (.api ⟨500, "boom"⟩) := by
  constructor
  · rfl
  · rw [show (ensureUpdateBranchExists c2Oracle true "owner" "repo" "test-branch" "main").1 =
      Except.error (.localErr
        "Branch test-branch was created but is not accessible after multiple retries")
      from rfl]
    simp

/-- Witness: `c2_verification_error` at the concrete status-500 client
with `k = 0`. -/
theorem c2_verification_error_witness :
    (ensureUpdateBranchExists c2Oracle true "owner" "repo" "test-branch" "main").1 =
      Except.error (.localErr
        "Branch test-branch was created but is not accessible after multiple retries") ∧
    getRefCount
      (ensureUpdateBranchExists c2Oracle true "owner" "repo" "test-branch" "main").2 = 3 :=
  c2_verification_error c2Oracle "owner" "repo" "test-branch" "main" ⟨404, "Not Found"⟩
    ⟨some "base-sha", ""⟩ ⟨none, ""⟩ 0 ⟨500, "boom"⟩ rfl rfl rfl rfl (by decide)
    (fun j hj => absurd hj (Nat.not_lt_zero j)) rfl (by decide)

/-- C4 (confirmed): when the verification reads report 404 on attempts
0..5 and succeed on attempt 6, the operation succeeds and the waits are,
in order, `500 * 2 ^ j` for `j = 0..5` — i.e. the wait before attempt `k`
(`k = 1..6`) is `500 * 2 ^ (k - 1)`, doubling from the 500 ms base with no
jitter — and no wait precedes attempt 0 (the wait list of the run has exactly
these six entries). -/
theorem c4_backoff_schedule (oracle : Oracle) (owner repo B base : String)
    (e0 : GitError) (bd cd d : RefData)
    (h0 : oracle 0 = .err e0) (h0s : e0.status = 404)
    (h1 : oracle 1 = .ok bd) (h2 : oracle 2 = .ok cd)
    (hpre : ∀ j, j < 6 → ∃ ej, oracle (3 + j) = .err ej ∧ ej.status = 404)
    (h9 : oracle 9 = .ok d) :
    (ensureUpdateBranchExists oracle true owner repo B base).1 = Except.ok true ∧
    waits (ensureUpdateBranchExists oracle true owner repo B base).2 =
      (List.range 6).map (fun j => VERIFICATION_BASE_DELAY_MS * 2 ^ j) := by
  have hmain := ensure_create_ok oracle owner repo B base e0 bd cd h0 h0s h1 h2
  obtain ⟨hv1, hv2⟩ := verifyGo_ok_after oracle (mkCtx owner repo B bd) 6 7 0 3 d rfl
    (by omega) hpre h9
  constructor
  · rw [hmain]
    exact hv1
  · rw [hmain]
    simp only [waits_cons_call]
    rw [hv2]
    rfl

/-- Witness: `c4_backoff_schedule` at the concrete six-misses client. -/
theorem c4_backoff_schedule_witness :
    (ensureUpdateBranchExists c4Oracle true "owner" "repo" "b" "main").1 = Except.ok true ∧
    waits (ensureUpdateBranchExists c4Oracle true "owner" "repo" "b" "main").2 =
      (List.range 6).map (fun j => VERIFICATION_BASE_DELAY_MS * 2 ^ j) :=
  c4_backoff_schedule c4Oracle "owner" "repo" "b" "main" ⟨404, "Not Found"⟩
    ⟨some "base-sha", ""⟩ ⟨none, ""⟩ ⟨some "new-branch-sha", ""⟩ rfl rfl rfl rfl
    (fun j hj => ⟨⟨404, "Not Found"⟩, by interval_cases j <;> rfl, rfl⟩) rfl

/-- C5 (confirmed): when all 7 verification reads report 404, the
operation fails with the synthesized error whose message contains
"not accessible after multiple retries" and names the branch, rather than
succeeding or propagating a 404. -/
theorem c5_exhaustion_failure (oracle : Oracle) (owner repo B base : String)
    (e0 : GitError) (bd cd : RefData)
    (h0 : oracle 0 = .err e0) (h0s : e0.status = 404)
    (h1 : oracle 1 = .ok bd) (h2 : oracle 2 = .ok cd)
    (hall : ∀ j, j < 7 → ∃ ej, oracle (3 + j) = .err ej ∧ ej.status = 404) :
    (ensureUpdateBranchExists oracle true owner repo B base).1 =
      Except.error (.localErr (verifyFailMsg B)) := by
  have hmain := ensure_create_ok oracle owner repo B base e0 bd cd h0 h0s h1 h2
  rw [hmain]
  exact verifyGo_all404 oracle (mkCtx owner repo B bd) 7 0 3 rfl (by omega) hall

/-- Witness: `c5_exhaustion_failure` at the concrete always-404 client. -/
theorem c5_exhaustion_failure_witness :
    (ensureUpdateBranchExists c5Oracle true "owner" "repo" "b" "main").1 =
      Except.error (.localErr
        "Branch b was created but is not accessible after multiple retries") :=
  c5_exhaustion_failure c5Oracle "owner" "repo" "b" "main" ⟨404, "Not Found"⟩
    ⟨some "base-sha", ""⟩ ⟨none, ""⟩ rfl rfl rfl rfl
    (fun j hj => ⟨⟨404, "Not Found"⟩, by interval_cases j <;> rfl, rfl⟩)

/-- C6 (confirmed): when the create conflicts (422) and the re-read
reports 404, exactly one `deleteRef` call is made, on the fully-qualified
ref `refs/heads/<B>` — tolerating a delete rejection with status 404 or
422 as a no-op — followed by exactly one retried `createRef`: the mutating
calls of the run are create, delete, create, with one delete and two
creates in total. -/
theorem c6_stale_cleanup (oracle : Oracle) (owner repo B base : String)
    (e0 e2 g3 : GitError) (bd c5 : RefData)
    (h0 : oracle 0 = .err e0) (h0s : e0.status = 404) (h1 : oracle 1 = .ok bd)
    (h2 : oracle 2 = .err e2) (he2 : e2.status = 422)
    (h3 : oracle 3 = .err g3) (hg3 : g3.status = 404)
    (htol : ∀ de, oracle 4 = .err de → de.status = 404 ∨ de.status = 422)
    (h5 : oracle 5 = .ok c5) :
    mutations (ensureUpdateBranchExists oracle true owner repo B base).2 =
      [ApiCall.createRef owner repo (BRANCH_REF_PREFIX ++ B) (resolveRefSha bd),
       ApiCall.deleteRef owner repo (BRANCH_REF_PREFIX ++ B),
       ApiCall.createRef owner repo (BRANCH_REF_PREFIX ++ B) (resolveRefSha bd)] ∧
    deleteCount (ensureUpdateBranchExists oracle true owner repo B base).2 = 1 ∧
    createCount (ensureUpdateBranchExists oracle true owner repo B base).2 = 2 := by
  have hcg1 : createGo oracle (mkCtx owner repo B bd) 2 2 =
      ((createGo oracle (mkCtx owner repo B bd) 5 1).1,
        Event.call (ApiCall.createRef owner repo (BRANCH_REF_PREFIX ++ B) (resolveRefSha bd))
          (ApiResult.err e2) ::
        Event.call (ApiCall.getRef owner repo (SHORT_REF_PREFIX ++ B)) (ApiResult.err g3) ::
        Event.call (ApiCall.deleteRef owner repo (BRANCH_REF_PREFIX ++ B)) (oracle 4) ::
        (createGo oracle (mkCtx owner repo B bd) 5 1).2.1,
        (createGo oracle (mkCtx owner repo B bd) 5 1).2.2) :=
    createGo_cleanup_step oracle (mkCtx owner repo B bd) 2 1 e2 g3 h2 he2 h3 hg3 htol
  have hcg2 : createGo oracle (mkCtx owner repo B bd) 5 1 =
      (Except.ok (),
        [Event.call (ApiCall.createRef owner repo (BRANCH_REF_PREFIX ++ B) (resolveRefSha bd))
          (ApiResult.ok c5)],
        6) := createGo_ok oracle (mkCtx owner repo B bd) 5 0 c5 h5
  rw [hcg2] at hcg1
  obtain ⟨hv1, hv2, _, hv4⟩ := verifyGo_counts oracle (mkCtx owner repo B bd) 7 0 6
  rw [ensure_unfold oracle owner repo B base e0 bd h0 h0s h1]
  rw [hcg1]
  refine ⟨?_, ?_, ?_⟩ <;> simp [hv1, hv2, hv4, isCreateRefE, isDeleteRefE]

/-- Witness: `c6_stale_cleanup` at the concrete stale-cleanup client whose
delete itself is rejected with 422. -/
theorem c6_stale_cleanup_witness :
    mutations (ensureUpdateBranchExists c6Oracle true "owner" "repo" "b" "main").2 =
      [ApiCall.createRef "owner" "repo" (BRANCH_REF_PREFIX ++ "b")
        (resolveRefSha ⟨some "base-sha", ""⟩),
       ApiCall.deleteRef "owner" "repo" (BRANCH_REF_PREFIX ++ "b"),
       ApiCall.createRef "owner" "repo" (BRANCH_REF_PREFIX ++ "b")
        (resolveRefSha ⟨some "base-sha", ""⟩)] ∧
    deleteCount (ensureUpdateBranchExists c6Oracle true "owner" "repo" "b" "main").2 = 1 ∧
    createCount (ensureUpdateBranchExists c6Oracle true "owner" "repo" "b" "main").2 = 2 :=
  c6_stale_cleanup c6Oracle "owner" "repo" "b" "main" ⟨404, "Not Found"⟩
    ⟨422, "Reference already exists"⟩ ⟨404, "Not Found"⟩ ⟨some "base-sha", ""⟩ ⟨none, ""⟩
    rfl rfl rfl rfl rfl rfl rfl
    (fun de hde => by
      injection hde with h
      rw [← h]
      decide)
    rfl

end Overweight
